import Mathlib

/-!
Shallow embedding of `src/01-intro-to-ai-agents/code_samples/01-python-agent-framework.py`.

Randomness is modelled by passing the draws of `random.randint` / `random.uniform`
explicitly as arguments; `time.sleep` is modelled by recording the slept duration in
the result wherever a property depends on it. Python exceptions are modelled with
`Except` or an explicit error type, and Python list indexing (which can raise
`IndexError`) is modelled with the fallible `getElem?` / `getLast?` accessors.
-/

/-- The fixed list of 12 vacation destinations hard-coded in
`get_random_destination`. -/
def destinations : List String :=
  ["Garmisch-Partenkirchen, Germany",
   "Munich, Germany",
   "Barcelona, Spain",
   "Paris, France",
   "Berlin, Germany",
   "Tokyo, Japan",
   "Sydney, Australia",
   "New York, USA",
   "Cairo, Egypt",
   "Cape Town, South Africa",
   "Rio de Janeiro, Brazil",
   "Bali, Indonesia"]

/-- Embedding of `get_random_destination`. The argument `r` models the draw of
`randint(0, len(destinations) - 1)`; the subscript `destinations[...]` is modelled
as the fallible `getElem?`, so that the absence of an `IndexError` is provable
rather than assumed. The `uniform(0, 0.99)` sleep affects only latency, never the
returned value, and is not recorded. -/
def get_random_destination (r : ℕ) : Option String :=
  destinations[r]?

/-- The fixed message of the exception raised by `get_weather` when the simulated
weather service fails. -/
def weatherUnavailableMsg : String :=
  "Weather service is currently unavailable. Please try again later."

/-- Observable behaviour of one `get_weather` call: the duration slept
(`time.sleep(delay_seconds)`) and either the raised exception message or the
returned string. -/
structure WeatherOutcome where
  delay : ℚ
  result : Except String String

/-- Embedding of `get_weather`. `d` models the `uniform(0.3, 3.7)` draw used as the
sleep duration and `r` the `randint(1, 10)` draw; the call raises (returns
`Except.error`) exactly when `r > 7`, otherwise it returns the fixed-format string
with the location embedded verbatim. -/
def get_weather (location : String) (d : ℚ) (r : ℕ) : WeatherOutcome :=
  { delay := d
    result :=
      if 7 < r then
        Except.error weatherUnavailableMsg
      else
        Except.ok ("The weather in " ++ location ++ " is cloudy with a high of 15°C.") }

/-- A naive (timezone-free) local datetime as produced by Python `datetime.now()`;
`datetime` guarantees `1 ≤ year ≤ 9999`, `1 ≤ month ≤ 12`, `1 ≤ day ≤ 31`,
`hour ≤ 23`, `minute ≤ 59`, `second ≤ 59`. -/
structure DateTime where
  year : ℕ
  month : ℕ
  day : ℕ
  hour : ℕ
  minute : ℕ
  second : ℕ

/-- The Python `datetime` range invariants for a value of `datetime.now()`. -/
def DateTime.valid (t : DateTime) : Prop :=
  1 ≤ t.year ∧ t.year ≤ 9999 ∧ 1 ≤ t.month ∧ t.month ≤ 12 ∧ 1 ≤ t.day ∧ t.day ≤ 31
    ∧ t.hour ≤ 23 ∧ t.minute ≤ 59 ∧ t.second ≤ 59

/-- The decimal digit character of `n % 10`. -/
def digitChar (n : ℕ) : Char := Char.ofNat (48 + n % 10)

/-- Two-digit zero-padded decimal rendering (Python `%02d` for values below 100). -/
def pad2 (n : ℕ) : List Char := [digitChar (n / 10), digitChar n]

/-- Four-digit zero-padded decimal rendering (Python `%04d` for values below
10000). -/
def pad4 (n : ℕ) : List Char :=
  [digitChar (n / 1000), digitChar (n / 100), digitChar (n / 10), digitChar n]

/-- Embedding of `datetime.isoformat(sep=' ', timespec='seconds')` on a naive
datetime: `YYYY-MM-DD HH:MM:SS`, seconds precision (sub-second part truncated,
there is no sub-second field in the model), and no timezone offset since
`datetime.now()` carries no `tzinfo`. -/
def isoformatSecSpace (t : DateTime) : String :=
  String.mk (pad4 t.year ++ ['-'] ++ pad2 t.month ++ ['-'] ++ pad2 t.day
    ++ [' '] ++ pad2 t.hour ++ [':'] ++ pad2 t.minute ++ [':'] ++ pad2 t.second)

/-- Embedding of `get_datetime`: formats the current local time `now`, read after
the `uniform(0.10, 5.0)` sleep (the sleep affects only latency, not the format). -/
def get_datetime (now : DateTime) : String :=
  isoformatSecSpace now

/-- Checker for the exact pattern `YYYY-MM-DD HH:MM:SS`: 19 characters, decimal
digits in every field position, `-` between date fields, a single space between
date and time, `:` between time fields; hence fixed width, no fractional seconds
and no timezone marker. -/
def matchesTimestampPattern (s : String) : Bool :=
  match s.data with
  | [y1, y2, y3, y4, s1, mo1, mo2, s2, d1, d2, s3, h1, h2, s4, mi1, mi2, s5, se1, se2] =>
    y1.isDigit && y2.isDigit && y3.isDigit && y4.isDigit && s1 == '-'
      && mo1.isDigit && mo2.isDigit && s2 == '-' && d1.isDigit && d2.isDigit
      && s3 == ' ' && h1.isDigit && h2.isDigit && s4 == ':' && mi1.isDigit
      && mi2.isDigit && s5 == ':' && se1.isDigit && se2.isDigit
  | _ => false

/-- A text content block of a chat message (`.text` is what the driver reads). -/
structure TextContent where
  text : String

/-- A chat message: an ordered list of content blocks. -/
structure ChatMessage where
  contents : List TextContent

/-- The response returned by the agent `run` call: an ordered list of messages. -/
structure AgentRunResponse where
  messages : List ChatMessage

/-- Python-level errors as observed by the driver: a bare `IndexError` from an
out-of-range subscript (no custom message), or any other exception (from a tool,
the client, or bad configuration) identified by its message. -/
inductive PyError where
  | indexError : PyError
  | exn : String → PyError

/-- The three environment variables read by the script via `os.environ.get`;
`none` models an unset variable (Python `None`). -/
structure Env where
  GITHUB_ENDPOINT : Option String
  GITHUB_TOKEN : Option String
  GITHUB_MODEL_ID : Option String

/-- The keyword arguments handed to the `OpenAIChatClient` constructor. -/
structure ClientConfig where
  base_url : Option String
  api_key : Option String
  model_id : Option String

/-- Embedding of the `openai_chat_client = OpenAIChatClient(...)` construction:
each `os.environ.get` result is forwarded unchecked — absent values included —
and the construction performs no validation and raises nothing. -/
def openai_chat_client (env : Env) : ClientConfig :=
  { base_url := env.GITHUB_ENDPOINT
    api_key := env.GITHUB_TOKEN
    model_id := env.GITHUB_MODEL_ID }

/-- The three tool functions registered with the agent, by name. -/
inductive ToolName where
  | getRandomDestination : ToolName
  | getWeather : ToolName
  | getDatetime : ToolName
deriving DecidableEq

/-- The configuration built by the `agent = ChatAgent(...)` call: the
instructions string and the ordered tool list. -/
structure AgentConfig where
  instructions : String
  tools : List ToolName

/-- Embedding of the `agent = ChatAgent(...)` construction. -/
def agent : AgentConfig :=
  { instructions := "You are a helpful AI Agent that can help plan vacations for customers at random destinations."
    tools := [ToolName.getRandomDestination, ToolName.getWeather, ToolName.getDatetime] }

/-- The fixed prompt passed to the single `agent.run` call in `main`. -/
def userPrompt : String :=
  "Plan me a day trip with activities and calculate the current weather at the destination. Mention the current date and time of the plan."

/-- Embedding of `main` (named `main_driver` here since Lean reserves `main`): await `agent.run(userPrompt)` — the external agent is
modelled as a function from prompt to outcome — then the unguarded subscripts
`response.messages[-1]` (last element, `IndexError` on an empty list) and
`last_message.contents[0]` (`IndexError` on an empty list), then the two `print`
calls, modelled as the list of printed lines. it installs no exception
handler, so any error outcome is returned as is. -/
def main_driver (run : String → Except PyError AgentRunResponse) :
    Except PyError (List String) :=
  match run userPrompt with
  | Except.error e => Except.error e
  | Except.ok response =>
    match response.messages.getLast? with
    | none => Except.error PyError.indexError
    | some last_message =>
      match last_message.contents[0]? with
      | none => Except.error PyError.indexError
      | some content => Except.ok ["🏖️ Travel plan:", content.text]

/-- Every `digitChar` value is a decimal digit character. -/
theorem digitChar_isDigit (n : ℕ) : (digitChar n).isDigit = true := by
  have h : n % 10 < 10 := Nat.mod_lt _ (by norm_num)
  have hall : ∀ k < 10, (Char.ofNat (48 + k)).isDigit = true := by decide
  exact hall (n % 10) h

/-- C1: for draws in the `randint(1, 10)` range, `get_weather` raises exactly when
the draw exceeds 7 — 3 of the 10 equally likely draws, i.e. probability exactly
30% — and any raised error carries the fixed unavailability message; otherwise it
returns normally. -/
theorem get_weather_failure_spec (location : String) (d : ℚ) (r : ℕ)
    (h1 : 1 ≤ r) (h2 : r ≤ 10) :
    ((∃ m, (get_weather location d r).result = Except.error m) ↔ 7 < r)
    ∧ (∀ m, (get_weather location d r).result = Except.error m →
        m = weatherUnavailableMsg)
    ∧ (List.range' 1 10).countP (fun k => decide (7 < k)) = 3
    ∧ (List.range' 1 10).length = 10 := by
  refine ⟨?_, ?_, by decide, by decide⟩
  · by_cases h : 7 < r
    · simp [get_weather, h]
    · simp [get_weather, h]
  · intro m hm
    by_cases h : 7 < r
    · rw [get_weather] at hm
      simp [h] at hm
      exact hm.symm
    · rw [get_weather] at hm
      simp [h] at hm

/-- Witness for C1 at location "Paris", delay draw 1 and integer draw 9. -/
theorem get_weather_failure_spec_witness :
    (∃ m, (get_weather "Paris" 1 9).result = Except.error m)
    ∧ (List.range' 1 10).countP (fun k => decide (7 < k)) = 3 := by
  have h := get_weather_failure_spec "Paris" 1 9 (by norm_num) (by norm_num)
  exact ⟨h.1.mpr (by norm_num), h.2.2.1⟩

/-- C3: whenever `get_weather` returns normally, the returned string is exactly
`"The weather in " ++ location ++ " is cloudy with a high of 15°C."`, the input
location embedded verbatim with no transformation. -/
theorem get_weather_success_format (location : String) (d : ℚ) (r : ℕ) (s : String)
    (h : (get_weather location d r).result = Except.ok s) :
    s = "The weather in " ++ location ++ " is cloudy with a high of 15°C." := by
  by_cases h7 : 7 < r
  · rw [get_weather] at h
    simp [h7] at h
  · rw [get_weather] at h
    simp [h7] at h
    exact h.symm

/-- Witness for C3 at location "Berlin", delay draw 1 and integer draw 3. -/
theorem get_weather_success_format_witness :
    (get_weather "Berlin" 1 3).result =
      Except.ok "The weather in Berlin is cloudy with a high of 15°C."
    ∧ "The weather in Berlin is cloudy with a high of 15°C." =
      "The weather in " ++ "Berlin" ++ " is cloudy with a high of 15°C." := by
  exact ⟨rfl, get_weather_success_format "Berlin" 1 3 _ rfl⟩

/-- C2: every draw in the `randint(0, len(destinations) - 1)` range selects `some`
member of the fixed 12-entry list — the subscript never fails — and each of the 12
entries is produced by exactly one of the 12 equally likely draws, i.e. each has
probability 1/12. -/
theorem get_random_destination_spec :
    destinations.length = 12
    ∧ (∀ r : ℕ, r ≤ destinations.length - 1 →
        ∃ dst ∈ destinations, get_random_destination r = some dst)
    ∧ (∀ dst ∈ destinations,
        (List.range destinations.length).countP
          (fun r => get_random_destination r == some dst) = 1) := by
  refine ⟨by decide, by decide, by decide⟩

/-- Witness for C2 at the draw 11 and the destination "Tokyo, Japan". -/
theorem get_random_destination_spec_witness :
    (∃ dst ∈ destinations, get_random_destination 11 = some dst)
    ∧ (List.range destinations.length).countP
        (fun r => get_random_destination r == some "Tokyo, Japan") = 1 := by
  exact ⟨get_random_destination_spec.2.1 11 (by decide),
    get_random_destination_spec.2.2 "Tokyo, Japan" (by decide)⟩

/-- C4: for every valid current datetime, the `get_datetime` output matches the
pattern `YYYY-MM-DD HH:MM:SS` exactly: fixed 19-character width, zero-padded
decimal fields, a single space between date and time, second precision with no
fractional seconds, and no timezone offset or marker. -/
theorem get_datetime_pattern (now : DateTime) (h : now.valid) :
    matchesTimestampPattern (get_datetime now) = true := by
  simp [get_datetime, isoformatSecSpace, matchesTimestampPattern, pad4, pad2,
    digitChar_isDigit]

/-- Witness for C4 at the datetime 2026-10-12 09:30:05. -/
theorem get_datetime_pattern_witness :
    matchesTimestampPattern (get_datetime ⟨2026, 10, 12, 9, 30, 5⟩) = true := by
  exact get_datetime_pattern ⟨2026, 10, 12, 9, 30, 5⟩ (by norm_num [DateTime.valid])

/-- C5: when the run call returns a response whose message list and whose last
message's content list are non-empty, the driver's standard output is exactly the
line "🏖️ Travel plan:" followed by the text of the last message's first content
block, with no transformation of that text. -/
theorem main_prints_travel_plan (run : String → Except PyError AgentRunResponse)
    (response : AgentRunResponse) (last_message : ChatMessage)
    (c : TextContent) (rest : List TextContent)
    (hrun : run userPrompt = Except.ok response)
    (hlast : response.messages.getLast? = some last_message)
    (hc : last_message.contents = c :: rest) :
    main_driver run = Except.ok ["🏖️ Travel plan:", c.text] := by
  simp [main_driver, hrun, hlast, hc]

/-- Witness for C5 on a stub run whose response holds one message with one
content block. -/
theorem main_prints_travel_plan_witness :
    main_driver (fun _ => Except.ok ⟨[⟨[⟨"Visit Bali."⟩]⟩]⟩)
      = Except.ok ["🏖️ Travel plan:", "Visit Bali."] := by
  exact main_prints_travel_plan (fun _ => Except.ok ⟨[⟨[⟨"Visit Bali."⟩]⟩]⟩)
    ⟨[⟨[⟨"Visit Bali."⟩]⟩]⟩ ⟨[⟨"Visit Bali."⟩]⟩ ⟨"Visit Bali."⟩ [] rfl rfl rfl

/-- C6: the agent is constructed with exactly the three tool functions in the
order random-destination, weather, datetime; the prompt of the single run call is
the exact fixed string; and the driver consults the external run only through its
value at that prompt (no run call at any other argument). -/
theorem agent_wiring_exact :
    agent.tools = [ToolName.getRandomDestination, ToolName.getWeather,
      ToolName.getDatetime]
    ∧ userPrompt = "Plan me a day trip with activities and calculate the current weather at the destination. Mention the current date and time of the plan."
    ∧ ∀ run₁ run₂ : String → Except PyError AgentRunResponse,
        run₁ userPrompt = run₂ userPrompt → main_driver run₁ = main_driver run₂ := by
  refine ⟨rfl, rfl, ?_⟩
  intro run₁ run₂ h
  unfold main_driver
  rw [h]

/-- Witness for C6 on two stub runs that agree at `userPrompt` but differ at
every other prompt. -/
theorem agent_wiring_exact_witness :
    main_driver (fun _ => Except.error (PyError.exn "boom"))
      = main_driver (fun p =>
          if p = userPrompt then Except.error (PyError.exn "boom")
          else Except.error PyError.indexError) := by
  exact agent_wiring_exact.2.2 _ _ (by simp)

/-- C7: if the run call returns a response with an empty message list, or whose
last message has an empty content list, the driver fails with a bare index error
(the unguarded subscripts `messages[-1]` and `contents[0]`) carrying no custom
message, rather than silently printing nothing. -/
theorem main_empty_response_index_error
    (run : String → Except PyError AgentRunResponse) (response : AgentRunResponse)
    (hrun : run userPrompt = Except.ok response)
    (hcase : response.messages = []
      ∨ ∃ last_message, response.messages.getLast? = some last_message
          ∧ last_message.contents = []) :
    main_driver run = Except.error PyError.indexError := by
  rcases hcase with hnil | ⟨lm, hl, hc⟩
  · simp [main_driver, hrun, hnil]
  · simp [main_driver, hrun, hl, hc]

/-- Witness for C7 on a stub run returning a response with no messages. -/
theorem main_empty_response_index_error_witness :
    main_driver (fun _ => Except.ok ⟨[]⟩) = Except.error PyError.indexError := by
  exact main_empty_response_index_error (fun _ => Except.ok ⟨[]⟩) ⟨[]⟩ rfl (Or.inl rfl)

/-- C8: the driver installs no exception handler: any error from the run call —
tool, client or configuration — is returned unchanged to the process boundary
(non-zero exit, no retry, no catch, no fallback output), while a well-formed
response makes the driver complete normally (exit 0). -/
theorem main_propagates_uncaught :
    (∀ (run : String → Except PyError AgentRunResponse) (e : PyError),
        run userPrompt = Except.error e → main_driver run = Except.error e)
    ∧ (∀ (run : String → Except PyError AgentRunResponse)
        (response : AgentRunResponse) (last_message : ChatMessage)
        (c : TextContent) (rest : List TextContent),
        run userPrompt = Except.ok response →
        response.messages.getLast? = some last_message →
        last_message.contents = c :: rest →
        ∃ out, main_driver run = Except.ok out) := by
  constructor
  · intro run e h
    simp [main_driver, h]
  · intro run response lm c rest hrun hl hc
    exact ⟨["🏖️ Travel plan:", c.text], by simp [main_driver, hrun, hl, hc]⟩

/-- Witness for C8 on a stub run that raises and a stub run that returns a
well-formed response. -/
theorem main_propagates_uncaught_witness :
    main_driver (fun _ => Except.error (PyError.exn "client failure"))
      = Except.error (PyError.exn "client failure")
    ∧ ∃ out, main_driver (fun _ => Except.ok ⟨[⟨[⟨"ok"⟩]⟩]⟩) = Except.ok out := by
  exact ⟨main_propagates_uncaught.1 (fun _ => Except.error (PyError.exn "client failure"))
      (PyError.exn "client failure") rfl,
    main_propagates_uncaught.2 (fun _ => Except.ok ⟨[⟨[⟨"ok"⟩]⟩]⟩)
      ⟨[⟨[⟨"ok"⟩]⟩]⟩ ⟨[⟨"ok"⟩]⟩ ⟨"ok"⟩ [] rfl rfl rfl⟩

/-- C9: the client construction validates nothing: each of the three
environment-sourced values — present or absent — is forwarded unchanged to the
chat client configuration, and the construction itself raises no error (it is a
total function). -/
theorem client_config_passthrough (env : Env) :
    (openai_chat_client env).base_url = env.GITHUB_ENDPOINT
    ∧ (openai_chat_client env).api_key = env.GITHUB_TOKEN
    ∧ (openai_chat_client env).model_id = env.GITHUB_MODEL_ID :=
  ⟨rfl, rfl, rfl⟩

/-- C10: with identical random draws, two `get_weather` calls sleep the same
duration and both raise or both return, whatever their location arguments: the
location influences only the text of the returned string, never the failure
decision or the latency. -/
theorem get_weather_location_independent (a b : String) (d : ℚ) (r : ℕ) :
    (get_weather a d r).delay = (get_weather b d r).delay
    ∧ (∀ m, (get_weather a d r).result = Except.error m
        ↔ (get_weather b d r).result = Except.error m)
    ∧ ((∃ s, (get_weather a d r).result = Except.ok s)
        ↔ ∃ s, (get_weather b d r).result = Except.ok s) := by
  by_cases h : 7 < r <;> simp [get_weather, h]
